import Mathlib

/-!
Shallow embedding of `smfc/gpuzone.py` (class `GpuZone`): the constructor's
parsing and validation of the `gpu_device_ids` configuration string, and the
cached temperature acquisition `_get_nth_temp`.

Python strings are modelled as `List Char`, Python floats and the monotonic
clock as exact rationals (`ℚ`), Python ints as `ℤ`.  Exceptions are modelled
by an explicit result type.  The filesystem and the `grep` subprocess are
modelled explicitly: `glob` results and file contents are parameters.
-/

set_option autoImplicit false

namespace Smfc

/-- Python exception kinds that `GpuZone.__init__` and `_get_nth_temp` can
raise in the modelled fragment. -/
inductive PyError where
  | indexError
  | fileNotFound
  | valueError
  deriving DecidableEq, Repr

/-- Result of a call to `_get_nth_temp`: a returned float or a raised
exception. -/
inductive PyResult where
  | ok : ℚ → PyResult
  | error : PyError → PyResult
  deriving DecidableEq, Repr

/-- Python whitespace characters recognised by `str.strip()` / `int()` /
`float()`. -/
def isPyWs (c : Char) : Bool :=
  c = ' ' || c = '\t' || c = '\n' || c = '\r' || c = '\x0b' || c = '\x0c'

/-- Model of Python `str.strip()`: remove leading and trailing whitespace. -/
def pyStrip (s : List Char) : List Char :=
  ((s.dropWhile isPyWs).reverse.dropWhile isPyWs).reverse

/-- Model of `re.sub(" +", " ", s)`: collapse each run of consecutive space
characters to a single space. -/
def collapseSpaces : List Char → List Char
  | [] => []
  | [c] => [c]
  | c1 :: c2 :: r =>
    if c1 = ' ' && c2 = ' ' then collapseSpaces (c2 :: r)
    else c1 :: collapseSpaces (c2 :: r)

/-- Model of Python `str.split(sep)` for a one-character separator: split on
every occurrence, keeping empty pieces (so the result is never empty). -/
def pySplit (sep : Char) : List Char → List (List Char)
  | [] => [[]]
  | c :: cs =>
    match pySplit sep cs with
    | [] => [[]]
    | g :: gs => if c = sep then [] :: g :: gs else (c :: g) :: gs

/-- Numeric value of a list of decimal digit characters. -/
def digitsVal (ds : List Char) : ℕ :=
  ds.foldl (fun a c => 10 * a + (c.toNat - 48)) 0

/-- Unsigned part of Python `int(s)`: a non-empty run of decimal digits.
Python's underscore digit grouping and non-ASCII digits are not modelled. -/
def pyIntCore (s : List Char) : Option ℤ :=
  if s ≠ [] ∧ s.all Char.isDigit then some (digitsVal s) else none

/-- Model of Python `int(s)` on strings: surrounding whitespace, an optional
sign, then decimal digits; `none` models a raised `ValueError`. -/
def pyInt (s : List Char) : Option ℤ :=
  match pyStrip s with
  | '+' :: r => pyIntCore r
  | '-' :: r => (pyIntCore r).map Neg.neg
  | r => pyIntCore r

/-- Unsigned part of Python `float(s)`: decimal digits with an optional
fractional part (`"45000"`, `"45.5"`, `"45."`, `".5"`); exponent and
`inf`/`nan` forms are not modelled. -/
def pyFloatCore (s : List Char) : Option ℚ :=
  let intd := s.takeWhile Char.isDigit
  match s.dropWhile Char.isDigit with
  | [] => if intd = [] then none else some (digitsVal intd)
  | '.' :: r2 =>
    let frac := r2.takeWhile Char.isDigit
    if r2.dropWhile Char.isDigit ≠ [] then none
    else if intd = [] ∧ frac = [] then none
    else some ((digitsVal intd : ℚ) + (digitsVal frac : ℚ) / (10 ^ frac.length))
  | _ => none

/-- Model of Python `float(s)` on strings: surrounding whitespace, an optional
sign, then a decimal literal; `none` models a raised `ValueError`. -/
def pyFloat (s : List Char) : Option ℚ :=
  match pyStrip s with
  | '+' :: r => pyFloatCore r
  | '-' :: r => (pyFloatCore r).map Neg.neg
  | r => pyFloatCore r

/-- Effective position of Python sequence index `i` in a sequence of length
`len`: negative indices count from the end; `none` models `IndexError`. -/
def pyIdx (len : ℕ) (i : ℤ) : Option ℕ :=
  let j := if i < 0 then i + len else i
  if 0 ≤ j ∧ j < len then some j.toNat else none

/-- Model of Python `l[i]` on lists (negative indices wrap once). -/
def pyGet {α : Type} (l : List α) (i : ℤ) : Option α :=
  (pyIdx l.length i).bind fun j => l.get? j

/-- Model of Python `l[i] = a` on lists (negative indices wrap once);
`none` models `IndexError` on assignment. -/
def pySet {α : Type} (l : List α) (i : ℤ) (a : α) : Option (List α) :=
  (pyIdx l.length i).map fun j => l.set j a

/-- Model of Python `max(l)` for floats: `none` models the `ValueError`
raised on an empty sequence. -/
def pyMax : List ℚ → Option ℚ
  | [] => none
  | t :: ts => some (ts.foldl max t)

/-- The tokens of the `gpu_device_ids=` string, as produced by
`GpuZone.__init__`: strip, collapse space runs, then split on `","` if a
comma is present and on `" "` otherwise. -/
def idTokens (raw : List Char) : List (List Char) :=
  let s := collapseSpaces (pyStrip raw)
  if s.contains ',' then pySplit ',' s else pySplit ' ' s

/-- The list comprehension `[int(s) for s in ...]`: parse every token,
failing (ValueError) as soon as one token fails. -/
def parseTokens : List (List Char) → Option (List ℤ)
  | [] => some []
  | t :: ts =>
    match pyInt t with
    | none => none
    | some n =>
      match parseTokens ts with
      | none => none
      | some ns => some (n :: ns)

/-- State of a `GpuZone` object: the configured device ids, the polling
interval inherited from `FanController`, and the two per-index cache lists. -/
structure GpuZone where
  gpu_device_ids : List ℤ
  polling : ℚ
  temp_retrieved : List ℚ
  gpu_temperature : List ℚ
  deriving DecidableEq, Repr

/-- The `GpuZone`-specific part of `GpuZone.__init__`: parse the
`gpu_device_ids` string, reject any id outside `range(0, 101)`, and allocate
the two cache lists filled with `0`; `none` models a raised `ValueError`. -/
def initGpuZone (raw : List Char) (polling : ℚ) : Option GpuZone :=
  match parseTokens (idTokens raw) with
  | none => none
  | some ids =>
    if ids.all (fun g => decide (0 ≤ g ∧ g ≤ 100)) then
      some { gpu_device_ids := ids
             polling := polling
             temp_retrieved := List.replicate ids.length 0
             gpu_temperature := List.replicate ids.length 0 }
    else none

/-- Model of Python `str.splitlines()` for `\n`-separated text: split on every
newline, dropping one trailing empty piece when the text ends in a newline. -/
def pySplitlines (s : List Char) : List (List Char) :=
  let parts := pySplit '\n' s
  if parts.getLast? = some [] then parts.dropLast else parts

/-- The filesystem and subprocess environment `_get_nth_temp` interacts with:
`paths g` is the (sorted) result of
`glob.glob(f"/sys/class/drm/card{g}/device/hwmon/*/temp*_input")` and
`content p` is the text content of file `p`. -/
structure FileSystem where
  paths : ℤ → List (List Char)
  content : List Char → List Char

/-- Standard output of `subprocess.run(["grep", ".", *paths])`: for each file
in order, each non-empty line, prefixed with `"{path}:"` exactly when more
than one file is given, each followed by a newline. -/
def grepStdout (paths : List (List Char)) (content : List Char → List Char) :
    List Char :=
  let pre : Bool := decide (2 ≤ paths.length)
  (paths.map (fun p =>
    (((pySplitlines (content p)).filter (fun l => l ≠ [])).map
      (fun l => (if pre then p ++ [':'] else []) ++ l ++ ['\n'])).flatten)).flatten

/-- The per-line parse `float(temp.split(":")[1]) / 1000` in `_get_nth_temp`:
`IndexError` when the line has no `":"`, `ValueError` when the piece after the
first `":"` is not a float. -/
def parseLine (line : List Char) : Except PyError ℚ :=
  match (pySplit ':' line).get? 1 with
  | none => .error .indexError
  | some s =>
    match pyFloat s with
    | none => .error .valueError
    | some q => .ok (q / 1000)

/-- The list comprehension `[float(temp.split(":")[1]) / 1000 for temp in
temp_list]`: parse every line in order, raising at the first failure. -/
def parseLines : List (List Char) → Except PyError (List ℚ)
  | [] => .ok []
  | l :: ls =>
    match parseLine l with
    | .error e => .error e
    | .ok q =>
      match parseLines ls with
      | .error e => .error e
      | .ok qs => .ok (q :: qs)

/-- Model of `GpuZone._get_nth_temp(index)`, following the source line by
line: read `temp_retrieved[index]`; when `now - temp_retrieved[index] >=
polling`, glob the hwmon paths of `gpu_device_ids[index]` (raising
`FileNotFoundError` when none exist), run `grep`, set
`temp_retrieved[index] = now`, parse each output line, take the maximum and
store it in `gpu_temperature[index]`; finally return
`gpu_temperature[index]`.  Returns the call's result together with the
(possibly mutated) object state, since a raised exception leaves prior
mutations in place. -/
def getNthTemp (z : GpuZone) (fs : FileSystem) (now : ℚ) (index : ℤ) :
    PyResult × GpuZone :=
  match pyGet z.temp_retrieved index with
  | none => (.error .indexError, z)
  | some tr =>
    if z.polling ≤ now - tr then
      match pyGet z.gpu_device_ids index with
      | none => (.error .indexError, z)
      | some gid =>
        let paths := fs.paths gid
        if paths = [] then (.error .fileNotFound, z)
        else
          match pySet z.temp_retrieved index now with
          | none => (.error .indexError, z)
          | some tr1 =>
            let z1 : GpuZone := { z with temp_retrieved := tr1 }
            match parseLines (pySplitlines (grepStdout paths fs.content)) with
            | .error e => (.error e, z1)
            | .ok temps =>
              match pyMax temps with
              | none => (.error .valueError, z1)
              | some m =>
                match pySet z1.gpu_temperature index m with
                | none => (.error .indexError, z1)
                | some gt =>
                  let z2 : GpuZone := { z1 with gpu_temperature := gt }
                  match pyGet z2.gpu_temperature index with
                  | none => (.error .indexError, z2)
                  | some v => (.ok v, z2)
    else
      match pyGet z.gpu_temperature index with
      | none => (.error .indexError, z)
      | some v => (.ok v, z)

/-! ### Helper lemmas about the string and list primitives -/

theorem pySplit_ne_nil (sep : Char) (s : List Char) : pySplit sep s ≠ [] := by
  induction s with
  | nil => simp [pySplit]
  | cons c cs ih =>
    unfold pySplit
    cases h : pySplit sep cs with
    | nil => exact absurd h ih
    | cons g gs => by_cases hc : c = sep <;> simp [hc]

theorem pySplit_of_not_contains (sep : Char) (s : List Char)
    (h : s.contains sep = false) : pySplit sep s = [s] := by
  induction s with
  | nil => rfl
  | cons c cs ih =>
    simp only [List.contains_cons, Bool.or_eq_false_iff,
      beq_eq_false_iff_ne] at h
    have hc : c ≠ sep := fun hcs => h.1 hcs.symm
    conv_lhs => unfold pySplit
    rw [ih h.2]
    simp [hc]

theorem pySplit_append_cons (sep : Char) (s t : List Char)
    (h : s.contains sep = false) :
    pySplit sep (s ++ sep :: t) = s :: pySplit sep t := by
  induction s with
  | nil =>
    simp only [List.nil_append]
    conv_lhs => unfold pySplit
    cases ht : pySplit sep t with
    | nil => exact absurd ht (pySplit_ne_nil sep t)
    | cons g gs => simp
  | cons c cs ih =>
    simp only [List.contains_cons, Bool.or_eq_false_iff,
      beq_eq_false_iff_ne] at h
    have hc : c ≠ sep := fun hcs => h.1 hcs.symm
    simp only [List.cons_append]
    conv_lhs => unfold pySplit
    rw [ih h.2]
    simp [hc]

theorem pySplitlines_append (s t : List Char) (h : s.contains '\n' = false) :
    pySplitlines (s ++ '\n' :: t) = s :: pySplitlines t := by
  unfold pySplitlines
  rw [pySplit_append_cons _ _ _ h]
  cases ht : pySplit '\n' t with
  | nil => exact absurd ht (pySplit_ne_nil _ t)
  | cons g gs =>
    by_cases hl : (g :: gs).getLast? = some ([] : List Char) <;>
      simp [List.getLast?_cons_cons, hl]

theorem pySplitlines_nil : pySplitlines [] = [] := by
  simp [pySplitlines, pySplit]

theorem pySplitlines_line (s : List Char) (h : s.contains '\n' = false) :
    pySplitlines (s ++ ['\n']) = [s] := by
  have := pySplitlines_append s [] h
  simpa [pySplitlines_nil] using this

/-! ### Helper lemmas about Python indexing -/

theorem pyIdx_lt {len : ℕ} {i : ℤ} {j : ℕ} (h : pyIdx len i = some j) :
    j < len := by
  by_cases hneg : i < 0 <;>
    simp only [pyIdx, hneg, if_true, if_false] at h <;>
    split_ifs at h with hc <;>
    simp only [Option.some.injEq] at h <;>
    omega

theorem pyGet_bind {α : Type} {l : List α} {i : ℤ} {x : α}
    (h : pyGet l i = some x) :
    ∃ j : ℕ, pyIdx l.length i = some j ∧ l.get? j = some x := by
  unfold pyGet at h
  exact Option.bind_eq_some.mp h

theorem get?_set_self {α : Type} (l : List α) (j : ℕ) (a : α)
    (h : j < l.length) : (l.set j a).get? j = some a := by
  induction l generalizing j with
  | nil => simp at h
  | cons b bs ih =>
    cases j with
    | zero => rfl
    | succ j => exact ih j (by simpa using h)

theorem pySet_some {α : Type} {l : List α} {i : ℤ} {x : α} (a : α)
    (h : pyGet l i = some x) :
    ∃ j : ℕ, pyIdx l.length i = some j ∧ pySet l i a = some (l.set j a) := by
  obtain ⟨j, hj, _⟩ := pyGet_bind h
  exact ⟨j, hj, by simp [pySet, hj]⟩

theorem pyGet_pySet_self {α : Type} {l l' : List α} {i : ℤ} {a : α}
    (h : pySet l i a = some l') : pyGet l' i = some a := by
  unfold pySet at h
  obtain ⟨j, hj, hl'⟩ := Option.map_eq_some'.mp h
  have hjl : j < l.length := pyIdx_lt hj
  unfold pyGet
  rw [← hl', List.length_set, hj]
  simpa using get?_set_self l j a hjl

theorem get?_replicate {α : Type} (q : α) :
    ∀ (n j : ℕ), j < n → (List.replicate n q).get? j = some q := by
  intro n
  induction n with
  | zero => intro j hj; omega
  | succ m ih =>
    intro j hj
    cases j with
    | zero => rfl
    | succ k => exact ih k (by omega)

theorem pyGet_replicate (n : ℕ) (q : ℚ) {i : ℤ} (h0 : 0 ≤ i)
    (hn : i < (n : ℤ)) : pyGet (List.replicate n q) i = some q := by
  have hneg : ¬ i < 0 := by omega
  simp only [pyGet, pyIdx, List.length_replicate, hneg, if_false]
  rw [if_pos ⟨h0, hn⟩]
  simp only [Option.some_bind]
  exact get?_replicate q n i.toNat (by omega)

/-! ### Branch lemmas for `getNthTemp` -/

theorem getNthTemp_cached {z : GpuZone} (fs : FileSystem) {now : ℚ} {i : ℤ}
    {tr v : ℚ}
    (htr : pyGet z.temp_retrieved i = some tr)
    (hfresh : now - tr < z.polling)
    (hv : pyGet z.gpu_temperature i = some v) :
    getNthTemp z fs now i = (.ok v, z) := by
  simp only [getNthTemp, htr, hv, if_neg (not_le.mpr hfresh)]

theorem getNthTemp_noPaths {z : GpuZone} {fs : FileSystem} {now : ℚ} {i : ℤ}
    {tr : ℚ} {gid : ℤ}
    (htr : pyGet z.temp_retrieved i = some tr)
    (helapsed : z.polling ≤ now - tr)
    (hgid : pyGet z.gpu_device_ids i = some gid)
    (hpaths : fs.paths gid = []) :
    getNthTemp z fs now i = (.error .fileNotFound, z) := by
  simp only [getNthTemp, htr, hgid, if_pos helapsed, hpaths, if_true]

theorem getNthTemp_indexError {z : GpuZone} (fs : FileSystem) (now : ℚ)
    {i : ℤ}
    (h : pyGet z.temp_retrieved i = none) :
    getNthTemp z fs now i = (.error .indexError, z) := by
  simp only [getNthTemp, h]

theorem getNthTemp_parse_error {z : GpuZone} {fs : FileSystem} {now : ℚ}
    {i : ℤ} {tr : ℚ} {gid : ℤ} {e : PyError} {T : List ℚ}
    (htr : pyGet z.temp_retrieved i = some tr)
    (helapsed : z.polling ≤ now - tr)
    (hgid : pyGet z.gpu_device_ids i = some gid)
    (hpne : fs.paths gid ≠ [])
    (hset1 : pySet z.temp_retrieved i now = some T)
    (hparse : parseLines (pySplitlines (grepStdout (fs.paths gid) fs.content))
      = .error e) :
    getNthTemp z fs now i = (.error e, { z with temp_retrieved := T }) := by
  simp only [getNthTemp, htr, hgid, if_pos helapsed, if_neg hpne, hset1,
    hparse]

theorem getNthTemp_acquire {z : GpuZone} {fs : FileSystem} {now : ℚ} {i : ℤ}
    {tr : ℚ} {gid : ℤ} {temps : List ℚ} {m : ℚ} {T G : List ℚ}
    (htr : pyGet z.temp_retrieved i = some tr)
    (helapsed : z.polling ≤ now - tr)
    (hgid : pyGet z.gpu_device_ids i = some gid)
    (hpne : fs.paths gid ≠ [])
    (hparse : parseLines (pySplitlines (grepStdout (fs.paths gid) fs.content))
      = .ok temps)
    (hmax : pyMax temps = some m)
    (hset1 : pySet z.temp_retrieved i now = some T)
    (hset2 : pySet z.gpu_temperature i m = some G) :
    getNthTemp z fs now i =
      (.ok m, { z with temp_retrieved := T, gpu_temperature := G }) := by
  have hget : pyGet G i = some m := pyGet_pySet_self hset2
  simp only [getNthTemp, htr, hgid, if_pos helapsed, if_neg hpne, hset1,
    hparse, hmax, hset2, hget]

/-! ### Lemmas about `grep` output and line parsing -/

theorem contains_append (a b : List Char) (ch : Char) :
    (a ++ b).contains ch = (a.contains ch || b.contains ch) := by
  induction a with
  | nil => simp
  | cons c cs ih => simp [List.contains_cons, ih, Bool.or_assoc]

theorem pySplitlines_entry (p s : List Char) (R : List Char)
    (hp : p.contains '\n' = false) (hs : s.contains '\n' = false) :
    pySplitlines (p ++ ':' :: (s ++ '\n' :: R)) =
      (p ++ ':' :: s) :: pySplitlines R := by
  have hps : (p ++ ':' :: s).contains '\n' = false := by
    rw [contains_append]
    simp only [List.contains_cons, hp, hs]
    decide
  have hshape : p ++ ':' :: (s ++ '\n' :: R) = (p ++ ':' :: s) ++ '\n' :: R := by
    simp
  rw [hshape, pySplitlines_append _ _ hps]

theorem parseLine_colon (p s : List Char) (r : ℚ)
    (hp : p.contains ':' = false) (hs : s.contains ':' = false)
    (hr : pyFloat s = some r) :
    parseLine (p ++ ':' :: s) = .ok (r / 1000) := by
  unfold parseLine
  rw [pySplit_append_cons _ _ _ hp, pySplit_of_not_contains _ _ hs]
  simp [hr]

theorem parseLine_no_colon (line : List Char)
    (h : line.contains ':' = false) :
    parseLine line = .error .indexError := by
  unfold parseLine
  rw [pySplit_of_not_contains _ _ h]
  rfl

theorem grepStdout_three (p1 p2 p3 s1 s2 s3 : List Char)
    (content : List Char → List Char)
    (hc1 : content p1 = s1 ++ ['\n']) (hc2 : content p2 = s2 ++ ['\n'])
    (hc3 : content p3 = s3 ++ ['\n'])
    (hs1n : s1.contains '\n' = false) (hs2n : s2.contains '\n' = false)
    (hs3n : s3.contains '\n' = false)
    (hs1e : s1 ≠ []) (hs2e : s2 ≠ []) (hs3e : s3 ≠ []) :
    grepStdout [p1, p2, p3] content =
      p1 ++ ':' :: (s1 ++ '\n' :: (p2 ++ ':' :: (s2 ++ '\n' ::
        (p3 ++ ':' :: (s3 ++ ['\n']))))) := by
  have e1 : pySplitlines (content p1) = [s1] := by
    rw [hc1]; exact pySplitlines_line _ hs1n
  have e2 : pySplitlines (content p2) = [s2] := by
    rw [hc2]; exact pySplitlines_line _ hs2n
  have e3 : pySplitlines (content p3) = [s3] := by
    rw [hc3]; exact pySplitlines_line _ hs3n
  unfold grepStdout
  simp [e1, e2, e3, hs1e, hs2e, hs3e]

theorem lines_three (p1 p2 p3 s1 s2 s3 : List Char)
    (content : List Char → List Char)
    (hc1 : content p1 = s1 ++ ['\n']) (hc2 : content p2 = s2 ++ ['\n'])
    (hc3 : content p3 = s3 ++ ['\n'])
    (hp1n : p1.contains '\n' = false) (hp2n : p2.contains '\n' = false)
    (hp3n : p3.contains '\n' = false)
    (hs1n : s1.contains '\n' = false) (hs2n : s2.contains '\n' = false)
    (hs3n : s3.contains '\n' = false)
    (hs1e : s1 ≠ []) (hs2e : s2 ≠ []) (hs3e : s3 ≠ []) :
    pySplitlines (grepStdout [p1, p2, p3] content) =
      [p1 ++ ':' :: s1, p2 ++ ':' :: s2, p3 ++ ':' :: s3] := by
  rw [grepStdout_three p1 p2 p3 s1 s2 s3 content hc1 hc2 hc3 hs1n hs2n hs3n
    hs1e hs2e hs3e]
  rw [pySplitlines_entry _ _ _ hp1n hs1n]
  rw [pySplitlines_entry _ _ _ hp2n hs2n]
  have : s3 ++ ['\n'] = s3 ++ '\n' :: ([] : List Char) := rfl
  rw [this, pySplitlines_entry _ _ _ hp3n hs3n, pySplitlines_nil]

/-! ### Lemmas about the constructor -/

theorem initGpuZone_eq_some {raw : List Char} {p : ℚ} {z : GpuZone}
    (h : initGpuZone raw p = some z) :
    ∃ ids, parseTokens (idTokens raw) = some ids ∧
      ids.all (fun g => decide (0 ≤ g ∧ g ≤ 100)) = true ∧
      z = { gpu_device_ids := ids, polling := p,
            temp_retrieved := List.replicate ids.length 0,
            gpu_temperature := List.replicate ids.length 0 } := by
  unfold initGpuZone at h
  split at h
  · cases h
  · rename_i ids hpt
    split_ifs at h with hall
    exact ⟨ids, hpt, hall, (Option.some.injEq _ _ |>.mp h).symm⟩

theorem parseTokens_all_iff (pred : ℤ → Bool) (ts : List (List Char)) :
    (∃ ns, parseTokens ts = some ns ∧ ns.all pred = true) ↔
      ∀ t ∈ ts, ∃ n, pyInt t = some n ∧ pred n = true := by
  induction ts with
  | nil => simp [parseTokens]
  | cons t ts ih =>
    constructor
    · rintro ⟨ns, hns, hall⟩
      unfold parseTokens at hns
      cases hpt : pyInt t with
      | none => rw [hpt] at hns; cases hns
      | some n =>
        rw [hpt] at hns
        cases hrest : parseTokens ts with
        | none => rw [hrest] at hns; cases hns
        | some ms =>
          rw [hrest] at hns
          have hns' : n :: ms = ns := by simpa using hns
          rw [← hns', List.all_cons, Bool.and_eq_true] at hall
          intro u hu
          rcases List.mem_cons.mp hu with h1 | h2
          · exact ⟨n, h1 ▸ hpt, hall.1⟩
          · exact (ih.mp ⟨ms, hrest, hall.2⟩) u h2
    · intro hall
      obtain ⟨n, hn, hpn⟩ := hall t (List.mem_cons_self t ts)
      obtain ⟨ms, hms, hmall⟩ :=
        ih.mpr (fun u hu => hall u (List.mem_cons_of_mem t hu))
      refine ⟨n :: ms, ?_, ?_⟩
      · simp [parseTokens, hn, hms]
      · simp [List.all_cons, hpn, hmall]

theorem pyGet_none {α : Type} (l : List α) (i : ℤ)
    (h : (l.length : ℤ) ≤ i ∨ i + l.length < 0) : pyGet l i = none := by
  have hidx : pyIdx l.length i = none := by
    by_cases hneg : i < 0 <;>
      simp only [pyIdx, hneg, if_true, if_false] <;>
      rw [if_neg (by omega)]
  simp [pyGet, hidx]

theorem pyGet_neg {α : Type} (l : List α) (i : ℤ) (hn : i < 0)
    (h0 : 0 ≤ i + l.length) :
    pyGet l i = l.get? (i + l.length).toNat := by
  simp only [pyGet, pyIdx, hn, if_true]
  rw [if_pos ⟨h0, by omega⟩]
  rfl

/-! ## The claims -/

/-- C2: for a valid index read within the polling interval (elapsed time
since the cached timestamp strictly below `polling`), `_get_nth_temp`
returns the cached value unchanged, performs no I/O (the result does not
depend on the filesystem) and mutates nothing; hence a second read of the
same index within the interval returns the identical value with no
additional acquisition. -/
theorem c2_cached_read_no_io (z : GpuZone) (fs : FileSystem) (now : ℚ)
    (i : ℤ) (tr v : ℚ)
    (htr : pyGet z.temp_retrieved i = some tr)
    (hfresh : now - tr < z.polling)
    (hv : pyGet z.gpu_temperature i = some v) :
    getNthTemp z fs now i = (.ok v, z) ∧
      ∀ (fs2 : FileSystem) (now2 : ℚ), now2 - tr < z.polling →
        getNthTemp z fs2 now2 i = (.ok v, z) :=
  ⟨getNthTemp_cached fs htr hfresh hv,
   fun fs2 _ h2 => getNthTemp_cached fs2 htr h2 hv⟩

/-- Witness for C2 at a concrete zone: one configured device, cached value
`7`, read 1 second after the cached timestamp with polling 2. -/
theorem c2_cached_read_no_io_witness :
    getNthTemp ⟨[0], 2, [0], [7]⟩ ⟨fun _ => [], fun _ => []⟩ 1 0 =
      (.ok 7, ⟨[0], 2, [0], [7]⟩) :=
  (c2_cached_read_no_io ⟨[0], 2, [0], [7]⟩ ⟨fun _ => [], fun _ => []⟩ 1 0 0 7
    (by decide) (by norm_num) (by decide)).1

/-- C4: when the polling interval has elapsed for a valid index and the
glob for the device's hwmon temperature inputs yields no paths,
`_get_nth_temp` raises `FileNotFoundError`, which propagates to the caller,
and the object state (in particular the cache entry) is unchanged. -/
theorem c4_no_paths_error (z : GpuZone) (fs : FileSystem) (now : ℚ) (i : ℤ)
    (tr : ℚ) (gid : ℤ)
    (htr : pyGet z.temp_retrieved i = some tr)
    (helapsed : z.polling ≤ now - tr)
    (hgid : pyGet z.gpu_device_ids i = some gid)
    (hpaths : fs.paths gid = []) :
    getNthTemp z fs now i = (.error .fileNotFound, z) :=
  getNthTemp_noPaths htr helapsed hgid hpaths

/-- Witness for C4 at a concrete zone: one configured device whose glob
result is empty, read after the polling interval. -/
theorem c4_no_paths_error_witness :
    getNthTemp ⟨[0], 2, [0], [0]⟩ ⟨fun _ => [], fun _ => []⟩ 5 0 =
      (.error .fileNotFound, ⟨[0], 2, [0], [0]⟩) :=
  c4_no_paths_error ⟨[0], 2, [0], [0]⟩ ⟨fun _ => [], fun _ => []⟩ 5 0 0 0
    (by decide) (by norm_num) (by decide) rfl

/-- C6 counterexample: the claim says every index outside `[0, N)` fails
fast with an index error and is never redirected to another sensor's cache
entry.  But Python list indexing accepts negative indices: with two
configured devices, index `-1` (outside `[0, 2)`) silently reads the cache
entry of sensor 1 and returns its cached value `9` instead of raising. -/
theorem c6_counterexample :
    (getNthTemp ⟨[3, 4], 2, [0, 0], [7, 9]⟩ ⟨fun _ => [], fun _ => []⟩
        1 (-1)).1 ≠ .error .indexError ∧
      getNthTemp ⟨[3, 4], 2, [0, 0], [7, 9]⟩ ⟨fun _ => [], fun _ => []⟩
        1 (-1) = (.ok 9, ⟨[3, 4], 2, [0, 0], [7, 9]⟩) := by
  have h : getNthTemp ⟨[3, 4], 2, [0, 0], [7, 9]⟩ ⟨fun _ => [], fun _ => []⟩
      1 (-1) = (.ok 9, ⟨[3, 4], 2, [0, 0], [7, 9]⟩) :=
    getNthTemp_cached _ rfl (by norm_num) rfl
  exact ⟨by rw [h]; simp, h⟩

/-- C6 amended: an index `i` with `i ≥ N` or `i < -N` (where `N` is the
cache length) makes `_get_nth_temp` fail fast with an `IndexError` and no
state change; a negative index `-N ≤ i < 0` is interpreted Python-style as
position `i + N` and reads that sensor's cache entry. -/
theorem c6_amended_index_error (z : GpuZone) (fs : FileSystem) (now : ℚ)
    (i : ℤ) :
    (((z.temp_retrieved.length : ℤ) ≤ i ∨ i + z.temp_retrieved.length < 0) →
      getNthTemp z fs now i = (.error .indexError, z)) ∧
    (∀ tr v : ℚ,
      z.gpu_temperature.length = z.temp_retrieved.length →
      -(z.temp_retrieved.length : ℤ) ≤ i → i < 0 →
      z.temp_retrieved.get? (i + z.temp_retrieved.length).toNat = some tr →
      now - tr < z.polling →
      z.gpu_temperature.get? (i + z.temp_retrieved.length).toNat = some v →
      getNthTemp z fs now i = (.ok v, z)) := by
  constructor
  · intro h
    exact getNthTemp_indexError fs now (pyGet_none _ _ h)
  · intro tr v hlen h0 hneg htr hfresh hv
    have htr' : pyGet z.temp_retrieved i = some tr := by
      rw [pyGet_neg _ _ hneg (by omega)]; exact htr
    have hv' : pyGet z.gpu_temperature i = some v := by
      rw [pyGet_neg _ _ hneg (by omega)]
      rw [hlen]; exact hv
    exact getNthTemp_cached fs htr' hfresh hv'

/-- Witness for C6 amended: index 5 on a two-sensor zone raises
`IndexError`, and index `-1` reads sensor 1's cache. -/
theorem c6_amended_index_error_witness :
    getNthTemp ⟨[3, 4], 2, [0, 0], [7, 9]⟩ ⟨fun _ => [], fun _ => []⟩ 1 5 =
        (.error .indexError, ⟨[3, 4], 2, [0, 0], [7, 9]⟩) ∧
      getNthTemp ⟨[3, 4], 2, [0, 0], [7, 9]⟩ ⟨fun _ => [], fun _ => []⟩
        1 (-1) = (.ok 9, ⟨[3, 4], 2, [0, 0], [7, 9]⟩) :=
  ⟨(c6_amended_index_error ⟨[3, 4], 2, [0, 0], [7, 9]⟩
      ⟨fun _ => [], fun _ => []⟩ 1 5).1 (by norm_num),
   (c6_amended_index_error ⟨[3, 4], 2, [0, 0], [7, 9]⟩
      ⟨fun _ => [], fun _ => []⟩ 1 (-1)).2 0 9 (by decide) (by norm_num)
      (by norm_num) (by decide) (by norm_num) (by decide)⟩

/-- C3 counterexample: the claim says a failed parse leaves the cache entry
entirely unchanged (both timestamp and value).  But `_get_nth_temp` assigns
`temp_retrieved[index] = current_time` before parsing: with one device,
polling 2, a read at time 5 whose second source file holds the unparsable
text `abc` raises `ValueError`, yet the last-poll timestamp has changed
from 0 to 5. -/
theorem c3_counterexample :
    getNthTemp ⟨[0], 2, [0], [0]⟩
        ⟨fun g => if g = 0 then [['a'], ['b']] else [],
         fun p => if p = ['a'] then "abc\n".data else "50000\n".data⟩ 5 0 =
      (.error .valueError, ⟨[0], 2, [5], [0]⟩) ∧
      ([5] : List ℚ) ≠ ([0] : List ℚ) := by
  have h : getNthTemp ⟨[0], 2, [0], [0]⟩
      ⟨fun g => if g = 0 then [['a'], ['b']] else [],
       fun p => if p = ['a'] then "abc\n".data else "50000\n".data⟩ 5 0 =
      (.error .valueError,
        { (⟨[0], 2, [0], [0]⟩ : GpuZone) with temp_retrieved := [5] }) :=
    getNthTemp_parse_error rfl (by norm_num) rfl (by simp) rfl rfl
  exact ⟨h, by norm_num⟩

/-- C3 amended: if parsing any source's raw value fails during a read, the
read aborts with a value error and the cached value (`gpu_temperature`) is
unchanged, but the last-poll timestamp (`temp_retrieved[index]`) has already
been updated to the current time before the parse, so it differs from its
pre-read value whenever `now` differs from it. -/
theorem c3_amended_parse_failure (z : GpuZone) (fs : FileSystem) (now : ℚ)
    (i : ℤ) (tr : ℚ) (gid : ℤ) (T : List ℚ)
    (htr : pyGet z.temp_retrieved i = some tr)
    (helapsed : z.polling ≤ now - tr)
    (hgid : pyGet z.gpu_device_ids i = some gid)
    (hpne : fs.paths gid ≠ [])
    (hset1 : pySet z.temp_retrieved i now = some T)
    (hparse : parseLines (pySplitlines (grepStdout (fs.paths gid) fs.content))
      = .error .valueError) :
    getNthTemp z fs now i =
        (.error .valueError, { z with temp_retrieved := T }) ∧
      (getNthTemp z fs now i).2.gpu_temperature = z.gpu_temperature ∧
      pyGet (getNthTemp z fs now i).2.temp_retrieved i = some now := by
  have h := getNthTemp_parse_error htr helapsed hgid hpne hset1 hparse
  refine ⟨h, by rw [h], ?_⟩
  rw [h]
  exact pyGet_pySet_self hset1

/-- Witness for C3 amended, at the counterexample scenario: one device, two
source files, the first holding unparsable text. -/
theorem c3_amended_parse_failure_witness :
    getNthTemp ⟨[0], 2, [0], [0]⟩
        ⟨fun g => if g = 0 then [['a'], ['b']] else [],
         fun p => if p = ['a'] then "abc\n".data else "50000\n".data⟩ 5 0 =
        (.error .valueError,
          { (⟨[0], 2, [0], [0]⟩ : GpuZone) with temp_retrieved := [5] }) ∧
      (getNthTemp ⟨[0], 2, [0], [0]⟩
        ⟨fun g => if g = 0 then [['a'], ['b']] else [],
         fun p => if p = ['a'] then "abc\n".data else "50000\n".data⟩
        5 0).2.gpu_temperature = ([0] : List ℚ) ∧
      pyGet (getNthTemp ⟨[0], 2, [0], [0]⟩
        ⟨fun g => if g = 0 then [['a'], ['b']] else [],
         fun p => if p = ['a'] then "abc\n".data else "50000\n".data⟩
        5 0).2.temp_retrieved 0 = some 5 :=
  c3_amended_parse_failure ⟨[0], 2, [0], [0]⟩
    ⟨fun g => if g = 0 then [['a'], ['b']] else [],
     fun p => if p = ['a'] then "abc\n".data else "50000\n".data⟩ 5 0 0 0 [5]
    rfl (by norm_num) rfl (by simp) rfl rfl

/-- C7 counterexample: the claim says the parsed sensor-id list never
contains duplicates, but construction from `gpu_device_ids = "1,1"` succeeds
and yields the list `[1, 1]`, which is not duplicate-free. -/
theorem c7_counterexample :
    initGpuZone ("1,1".data) 2 = some ⟨[1, 1], 2, [0, 0], [0, 0]⟩ ∧
      ¬ (⟨[1, 1], 2, [0, 0], [0, 0]⟩ : GpuZone).gpu_device_ids.Nodup :=
  ⟨rfl, by decide⟩

/-- C7 amended: after successful construction every id in `gpu_device_ids`
lies in `[0, 100]` and the list preserves the order and multiplicity of the
input tokens; uniqueness is not enforced, so duplicate ids are accepted. -/
theorem c7_amended_ids_in_range (raw : List Char) (p : ℚ) (z : GpuZone)
    (hz : initGpuZone raw p = some z) :
    ∀ g ∈ z.gpu_device_ids, 0 ≤ g ∧ g ≤ 100 := by
  obtain ⟨ids, _, hall, rfl⟩ := initGpuZone_eq_some hz
  intro g hg
  exact of_decide_eq_true (List.all_eq_true.mp hall g hg)

/-- Witness for C7 amended: the duplicated id `1` parsed from `"1,1"` is in
range. -/
theorem c7_amended_ids_in_range_witness : (0 : ℤ) ≤ 1 ∧ (1 : ℤ) ≤ 100 :=
  c7_amended_ids_in_range ("1,1".data) 2 ⟨[1, 1], 2, [0, 0], [0, 0]⟩ rfl 1
    (by decide)

/-- C8: for every configuration accepted by construction, the two cache
lists `temp_retrieved` and `gpu_temperature` have the same length as the
parsed `gpu_device_ids` list and every entry of both is the never-polled
value `0`. -/
theorem c8_cache_arrays_init (raw : List Char) (p : ℚ) (z : GpuZone)
    (hz : initGpuZone raw p = some z) :
    z.temp_retrieved.length = z.gpu_device_ids.length ∧
      z.gpu_temperature.length = z.gpu_device_ids.length ∧
      (∀ x ∈ z.temp_retrieved, x = 0) ∧ ∀ x ∈ z.gpu_temperature, x = 0 := by
  obtain ⟨ids, _, _, rfl⟩ := initGpuZone_eq_some hz
  refine ⟨by simp, by simp, ?_, ?_⟩ <;> intro x hx <;>
    exact List.eq_of_mem_replicate hx

/-- Witness for C8 at the configuration string `"1, 2"`. -/
theorem c8_cache_arrays_init_witness :
    (⟨[1, 2], 2, [0, 0], [0, 0]⟩ : GpuZone).temp_retrieved.length =
        (⟨[1, 2], 2, [0, 0], [0, 0]⟩ : GpuZone).gpu_device_ids.length ∧
      (⟨[1, 2], 2, [0, 0], [0, 0]⟩ : GpuZone).gpu_temperature.length =
        (⟨[1, 2], 2, [0, 0], [0, 0]⟩ : GpuZone).gpu_device_ids.length :=
  ⟨(c8_cache_arrays_init ("1, 2".data) 2 ⟨[1, 2], 2, [0, 0], [0, 0]⟩ rfl).1,
   (c8_cache_arrays_init ("1, 2".data) 2 ⟨[1, 2], 2, [0, 0], [0, 0]⟩ rfl).2.1⟩

/-- C5: construction normalizes whitespace, splits the `gpu_device_ids`
string on comma if one is present and on space otherwise, and succeeds
exactly when every token parses as an integer in `[0, 100]`; any
unparsable or out-of-range token aborts construction with a `ValueError`
(modelled by `none`) — no bad id is defaulted to `0`. -/
theorem c5_id_parsing_validation (raw : List Char) (p : ℚ) :
    (initGpuZone raw p).isSome ↔
      ∀ t ∈ idTokens raw, ∃ n : ℤ, pyInt t = some n ∧ 0 ≤ n ∧ n ≤ 100 := by
  have key := parseTokens_all_iff (fun g => decide (0 ≤ g ∧ g ≤ 100))
    (idTokens raw)
  constructor
  · intro h
    obtain ⟨z, hz⟩ := Option.isSome_iff_exists.mp h
    obtain ⟨ids, h1, h2, _⟩ := initGpuZone_eq_some hz
    intro t ht
    obtain ⟨n, hn, hpn⟩ := key.mp ⟨ids, h1, h2⟩ t ht
    exact ⟨n, hn, of_decide_eq_true hpn⟩
  · intro h
    obtain ⟨ns, hns, hall⟩ := key.mpr
      (fun t ht => (h t ht).elim fun n hn => ⟨n, hn.1, decide_eq_true hn.2⟩)
    simp only [initGpuZone, hns, hall, if_true]
    rfl

/-- Witness for C5: the id string `"1,1"` has only tokens parsing to in-range
integers, so construction succeeds. -/
theorem c5_id_parsing_validation_witness :
    (initGpuZone ("1,1".data) 2).isSome :=
  (c5_id_parsing_validation ("1,1".data) 2).mpr (by
    have e : idTokens ("1,1".data) = [['1'], ['1']] := rfl
    rw [e]
    intro t ht
    rcases List.mem_cons.mp ht with h1 | h2
    · exact ⟨1, h1 ▸ rfl, by norm_num⟩
    · have h1 : t = ['1'] := by simpa using h2
      exact ⟨1, h1 ▸ rfl, by norm_num⟩)

/-- C9: the per-line parse splits each raw output line on `":"` and takes
the piece at position 1, so every line without a `":"` separator raises
`IndexError` even when the whole line is a valid milli-degree number; in
particular with a single source file (where `grep` prints no filename
prefix) the bare numeric line `45000` is never parsed and the read raises
`IndexError`. -/
theorem c9_bare_line_index_error :
    (∀ line : List Char, line.contains ':' = false →
        parseLine line = .error .indexError) ∧
      (getNthTemp ⟨[0], 2, [0], [0]⟩
          ⟨fun g => if g = 0 then [['a']] else [],
           fun _ => "45000\n".data⟩ 5 0).1 = .error .indexError := by
  refine ⟨parseLine_no_colon, ?_⟩
  have h : getNthTemp ⟨[0], 2, [0], [0]⟩
      ⟨fun g => if g = 0 then [['a']] else [], fun _ => "45000\n".data⟩ 5 0 =
      (.error .indexError,
        { (⟨[0], 2, [0], [0]⟩ : GpuZone) with temp_retrieved := [5] }) :=
    getNthTemp_parse_error rfl (by norm_num) rfl (by simp) rfl rfl
  rw [h]

/-- Witness for C9: the bare numeric line `45000` contains no `":"` and its
parse raises `IndexError`. -/
theorem c9_bare_line_index_error_witness :
    ("45000".data).contains ':' = false ∧
      parseLine ("45000".data) = .error .indexError :=
  ⟨rfl, c9_bare_line_index_error.1 ("45000".data) rfl⟩

/-- C10: the never-polled state is timestamp `0` on the same monotonic
clock used for freshness checks: after construction the cached timestamp of
every valid index is `0`, a first read at monotonic time `now < polling`
returns the initial cached value `0` with no I/O and no state change, and a
first read at `now ≥ polling` performs an acquisition (with an empty glob
result it reaches the filesystem and raises `FileNotFoundError`). -/
theorem c10_first_read_threshold (raw : List Char) (p : ℚ) (z : GpuZone)
    (fs : FileSystem) (now : ℚ) (i : ℤ)
    (hz : initGpuZone raw p = some z)
    (h0 : 0 ≤ i) (hlt : i < z.gpu_device_ids.length) :
    pyGet z.temp_retrieved i = some 0 ∧
      (now < z.polling → getNthTemp z fs now i = (.ok 0, z)) ∧
      (z.polling ≤ now → ∀ gid : ℤ, pyGet z.gpu_device_ids i = some gid →
        fs.paths gid = [] →
        getNthTemp z fs now i = (.error .fileNotFound, z)) := by
  obtain ⟨ids, _, _, rfl⟩ := initGpuZone_eq_some hz
  have hlt' : i < ((List.replicate ids.length (0 : ℚ)).length : ℤ) := by
    simpa using hlt
  have htr : pyGet (List.replicate ids.length (0 : ℚ)) i = some 0 :=
    pyGet_replicate _ _ h0 (by simpa using hlt)
  refine ⟨htr, fun hfresh => ?_, fun hge gid hgid hpaths => ?_⟩
  · exact getNthTemp_cached fs htr (by simpa using hfresh) htr
  · exact getNthTemp_noPaths htr (by simpa using hge) hgid hpaths

/-- Witness for C10: with `gpu_device_ids = "0"` and polling 2, a first
read at time 1 returns the cached 0 with no state change. -/
theorem c10_first_read_threshold_witness :
    pyGet (⟨[0], 2, [0], [0]⟩ : GpuZone).temp_retrieved 0 = some 0 ∧
      getNthTemp ⟨[0], 2, [0], [0]⟩ ⟨fun _ => [], fun _ => []⟩ 1 0 =
        (.ok 0, ⟨[0], 2, [0], [0]⟩) :=
  ⟨(c10_first_read_threshold ("0".data) 2 ⟨[0], 2, [0], [0]⟩
      ⟨fun _ => [], fun _ => []⟩ 1 0 rfl (by norm_num) (by decide)).1,
   (c10_first_read_threshold ("0".data) 2 ⟨[0], 2, [0], [0]⟩
      ⟨fun _ => [], fun _ => []⟩ 1 0 rfl (by norm_num) (by decide)).2.1
      (by norm_num)⟩

/-- C1: when the polling interval has elapsed for a valid index,
`_get_nth_temp` reads every resolved source (here three hwmon files whose
single lines parse as floats `r1`, `r2`, `r3`), rescales each raw
milli-degree value by `1/1000`, stores timestamp `now` and the maximum of
the scaled readings in the cache, and returns that maximum. -/
theorem c1_acquisition_max (z : GpuZone) (fs : FileSystem) (now : ℚ) (i : ℤ)
    (tr v0 : ℚ) (gid : ℤ) (p1 p2 p3 s1 s2 s3 : List Char) (r1 r2 r3 : ℚ)
    (htr : pyGet z.temp_retrieved i = some tr)
    (helapsed : z.polling ≤ now - tr)
    (hgid : pyGet z.gpu_device_ids i = some gid)
    (hpaths : fs.paths gid = [p1, p2, p3])
    (hp1n : p1.contains '\n' = false) (hp2n : p2.contains '\n' = false)
    (hp3n : p3.contains '\n' = false)
    (hp1c : p1.contains ':' = false) (hp2c : p2.contains ':' = false)
    (hp3c : p3.contains ':' = false)
    (hc1 : fs.content p1 = s1 ++ ['\n']) (hc2 : fs.content p2 = s2 ++ ['\n'])
    (hc3 : fs.content p3 = s3 ++ ['\n'])
    (hs1n : s1.contains '\n' = false) (hs2n : s2.contains '\n' = false)
    (hs3n : s3.contains '\n' = false)
    (hs1c : s1.contains ':' = false) (hs2c : s2.contains ':' = false)
    (hs3c : s3.contains ':' = false)
    (hs1e : s1 ≠ []) (hs2e : s2 ≠ []) (hs3e : s3 ≠ [])
    (hr1 : pyFloat s1 = some r1) (hr2 : pyFloat s2 = some r2)
    (hr3 : pyFloat s3 = some r3)
    (hv0 : pyGet z.gpu_temperature i = some v0) :
    getNthTemp z fs now i =
        (.ok (max (max (r1 / 1000) (r2 / 1000)) (r3 / 1000)),
         { z with
             temp_retrieved := (pySet z.temp_retrieved i now).getD [],
             gpu_temperature := (pySet z.gpu_temperature i
               (max (max (r1 / 1000) (r2 / 1000)) (r3 / 1000))).getD [] }) ∧
      pyGet ((pySet z.temp_retrieved i now).getD []) i = some now ∧
      pyGet ((pySet z.gpu_temperature i
          (max (max (r1 / 1000) (r2 / 1000)) (r3 / 1000))).getD []) i =
        some (max (max (r1 / 1000) (r2 / 1000)) (r3 / 1000)) := by
  obtain ⟨j1, hj1, hT⟩ := pySet_some now htr
  obtain ⟨j2, hj2, hG⟩ :=
    pySet_some (max (max (r1 / 1000) (r2 / 1000)) (r3 / 1000)) hv0
  have hlines : pySplitlines (grepStdout (fs.paths gid) fs.content) =
      [p1 ++ ':' :: s1, p2 ++ ':' :: s2, p3 ++ ':' :: s3] := by
    rw [hpaths]
    exact lines_three p1 p2 p3 s1 s2 s3 fs.content hc1 hc2 hc3 hp1n hp2n hp3n
      hs1n hs2n hs3n hs1e hs2e hs3e
  have hparse :
      parseLines (pySplitlines (grepStdout (fs.paths gid) fs.content)) =
        .ok [r1 / 1000, r2 / 1000, r3 / 1000] := by
    rw [hlines]
    simp [parseLines, parseLine_colon _ _ _ hp1c hs1c hr1,
      parseLine_colon _ _ _ hp2c hs2c hr2, parseLine_colon _ _ _ hp3c hs3c hr3]
  have hmax : pyMax [r1 / 1000, r2 / 1000, r3 / 1000] =
      some (max (max (r1 / 1000) (r2 / 1000)) (r3 / 1000)) := by
    simp [pyMax, List.foldl_cons, List.foldl_nil]
  have happ := getNthTemp_acquire htr helapsed hgid
    (by rw [hpaths]; simp) hparse hmax hT hG
  rw [hT, hG]
  simp only [Option.getD_some]
  exact ⟨happ, pyGet_pySet_self hT, pyGet_pySet_self hG⟩

/-- Witness for C1: three sources with raw milli-degree values 45000,
52000, 38000 yield the returned temperature 52 and the cache is updated to
timestamp 5 and value 52. -/
theorem c1_acquisition_max_witness :
    getNthTemp ⟨[0], 2, [0], [0]⟩
        ⟨fun g => if g = 0 then ["a".data, "b".data, "c".data] else [],
         fun p => if p = "a".data then "45000\n".data
           else if p = "b".data then "52000\n".data
           else "38000\n".data⟩ 5 0 =
      (.ok 52, ⟨[0], 2, [5], [52]⟩) := by
  have h := (c1_acquisition_max ⟨[0], 2, [0], [0]⟩
      ⟨fun g => if g = 0 then ["a".data, "b".data, "c".data] else [],
       fun p => if p = "a".data then "45000\n".data
         else if p = "b".data then "52000\n".data
         else "38000\n".data⟩ 5 0 0 0 0
      ("a".data) ("b".data) ("c".data)
      ("45000".data) ("52000".data) ("38000".data) 45000 52000 38000
      rfl (by norm_num) rfl rfl rfl rfl rfl rfl rfl rfl rfl rfl rfl
      rfl rfl rfl rfl rfl rfl (by decide) (by decide) (by decide)
      rfl rfl rfl rfl).1
  have hm : max (max ((45000 : ℚ) / 1000) ((52000 : ℚ) / 1000))
      ((38000 : ℚ) / 1000) = 52 := by norm_num
  rw [hm] at h
  exact h

end Smfc
